import Mathlib

/-!
Shallow embedding of the grasshopper polling/fan-out engine and script
supervisor (src/src/fetch_aggregator.rs, src/src/fetcher.rs,
src/src/lua_interface.rs, src/src/lua_runtime.rs, src/src/event.rs),
with theorems settling the specification claims about it.
-/

namespace Grasshopper

/-- The subset of `reqwest::Method` values constructible through
`deserialize_method` (src/src/lua_interface.rs:244-256): GET, POST, PUT,
DELETE, PATCH. -/
inductive Method where
  | GET
  | POST
  | PUT
  | DELETE
  | PATCH
deriving DecidableEq, Repr

/-- `RequestPayload` (src/src/lua_interface.rs:258-266): the fetch target
record deserialized from a script's subscription request. -/
structure RequestPayload where
  url : String
  method : Method
  body : Option String
  headers : Option (List (String × String)) := none
  sign : Option String := none
deriving DecidableEq, Repr

/-- The `PartialEq for RequestPayload` impl (src/src/lua_interface.rs:268-272):
equality restricted to `(url, method, body)`; `headers` and `sign` are
ignored.  The `Hash` impl (lines 276-282) hashes exactly the same three
fields, so the `HashMap` keyed by `RequestPayload` behaves as a map keyed by
this fingerprint. -/
def RequestPayload.fpEq (a b : RequestPayload) : Bool :=
  a.url == b.url && a.method == b.method && a.body == b.body

/-- `deserialize_method` (src/src/lua_interface.rs:244-256): lowercases the
incoming string and accepts exactly get/post/put/delete/patch; anything else
is a deserialization (construction) error. -/
def deserialize_method (m : String) : Except String Method :=
  let l := m.toLower
  if l = "get" then .ok .GET
  else if l = "post" then .ok .POST
  else if l = "put" then .ok .PUT
  else if l = "delete" then .ok .DELETE
  else if l = "patch" then .ok .PATCH
  else .error s!"method {m} is not a valid HTTP method"

/-- `ResponsePayload` (src/src/lua_interface.rs:337-343): the fetch result
record delivered to scripts. -/
structure ResponsePayload where
  url : String
  content : String
  status : Nat
  headers : List (String × String) := []
deriving DecidableEq, Repr

/-- One `oneshot::Sender<()>` handle recorded in `Session::kill_txs`
(src/src/fetch_aggregator.rs:47): the cancel handle of one forwarding
bridge.  `fetcherId` names the fetcher the bridge is attached to; `live`
records whether the bridge task still holds the receiving end (a tokio
oneshot `send` succeeds exactly when the receiver has not been dropped). -/
structure Bridge where
  fetcherId : Nat
  live : Bool
deriving DecidableEq, Repr

/-- `FetchAggregator` (src/src/fetch_aggregator.rs:18-20): the process-wide
registry.  The `HashMap<RequestPayload, Fetcher>` is embedded as an
association list keyed by the fingerprint equality `RequestPayload.fpEq`
(hash and equality agree on `(url, method, body)`, so `HashMap` lookup is
fingerprint lookup); fetchers are named by the `Nat` id they were created
with, `nextId` supplying fresh ids. -/
structure FetchAggregator where
  fetchers : List (RequestPayload × Nat)
  nextId : Nat
deriving DecidableEq, Repr

/-- `FetchAggregator::new` (src/src/fetch_aggregator.rs:23-27). -/
def FetchAggregator.new : FetchAggregator := ⟨[], 0⟩

/-- `HashMap::entry` lookup under the custom `Hash`/`PartialEq`: the first
entry whose key is fingerprint-equal to `p`. -/
def lookupFetcher : List (RequestPayload × Nat) → RequestPayload → Option Nat
  | [], _ => none
  | e :: rest, p => if e.1.fpEq p then some e.2 else lookupFetcher rest p

/-- `Session` (src/src/fetch_aggregator.rs:42-48): `queue` is the pending
content of the bounded (capacity 32) fan-in mpsc channel whose sender `tx`
the session itself also retains (so the channel is never closed while the
session lives); an element `none` is the shutdown sentinel, `some r` a
forwarded result.  `killTxs` is the `kill_txs` vector of bridge cancel
handles. -/
structure Session where
  queue : List (Option ResponsePayload) := []
  killTxs : List Bridge := []
deriving DecidableEq, Repr

/-- Result of one `Session::subscribe` call
(src/src/fetch_aggregator.rs:52-72): the updated registry and session, the
id of the fetcher the new bridge was attached to, whether a new `Fetcher`
was spawned (the `Entry::Vacant` arm), and the function's `eyre::Result<()>`
return value. -/
structure SubscribeOutcome where
  agg : FetchAggregator
  sess : Session
  fid : Nat
  created : Bool
  result : Except String Unit
deriving Repr

/-- `Session::subscribe` (src/src/fetch_aggregator.rs:52-72): looks the
payload up in the registry under the fingerprint equality; an occupied entry
reuses the existing fetcher, a vacant entry inserts a freshly created one;
either way the bridge's kill handle is pushed onto `kill_txs` and the
function returns `Ok(())` (no statement in the body produces an `Err`). -/
def Session.subscribe (agg : FetchAggregator) (s : Session) (p : RequestPayload) :
    SubscribeOutcome :=
  match lookupFetcher agg.fetchers p with
  | some fid =>
      ⟨agg, { s with killTxs := s.killTxs ++ [⟨fid, true⟩] }, fid, false, .ok ()⟩
  | none =>
      let fid := agg.nextId
      ⟨⟨agg.fetchers ++ [(p, fid)], fid + 1⟩,
       { s with killTxs := s.killTxs ++ [⟨fid, true⟩] }, fid, true, .ok ()⟩

/-- A sequence of subscribe calls against one registry (all through the same
session; the registry evolution is independent of which session calls). -/
def subscribeMany (agg : FetchAggregator) (s : Session) :
    List RequestPayload → FetchAggregator × Session
  | [] => (agg, s)
  | p :: ps =>
      let o := Session.subscribe agg s p
      subscribeMany o.agg o.sess ps

/-- The strict-dedup registry invariant: no two stored keys share a
fingerprint (at most one fetcher per fingerprint). -/
def WellFormed (agg : FetchAggregator) : Prop :=
  agg.fetchers.Pairwise fun a b => a.1.fpEq b.1 = false

theorem RequestPayload.fpEq_symm (a b : RequestPayload) : a.fpEq b = b.fpEq a := by
  simp only [RequestPayload.fpEq]
  rcases Bool.eq_false_or_eq_true (a.url == b.url) with h | h <;>
    rcases Bool.eq_false_or_eq_true (a.method == b.method) with h2 | h2 <;>
    rcases Bool.eq_false_or_eq_true (a.body == b.body) with h3 | h3 <;>
      simp_all [BEq.comm]

theorem lookupFetcher_none {fs : List (RequestPayload × Nat)} {p : RequestPayload}
    (h : lookupFetcher fs p = none) : ∀ q ∈ fs, q.1.fpEq p = false := by
  induction fs with
  | nil => intro q hq; cases hq
  | cons hd tl ih =>
      intro q hq
      rw [lookupFetcher] at h
      by_cases hc : hd.1.fpEq p = true
      · simp [hc] at h
      · simp only [Bool.not_eq_true] at hc
        simp [hc] at h
        rcases List.mem_cons.mp hq with rfl | hq
        · exact hc
        · exact ih h q hq

theorem subscribe_preserves_wf (agg : FetchAggregator) (s : Session)
    (p : RequestPayload) (h : WellFormed agg) :
    WellFormed (Session.subscribe agg s p).agg := by
  unfold Session.subscribe
  cases hl : lookupFetcher agg.fetchers p with
  | some fid => exact h
  | none =>
      simp only [WellFormed] at *
      rw [List.pairwise_append]
      refine ⟨h, List.pairwise_singleton _ _, ?_⟩
      intro a ha b hb
      simp only [List.mem_singleton] at hb
      subst hb
      simpa using lookupFetcher_none hl a ha

theorem subscribeMany_wf (ps : List RequestPayload) (agg : FetchAggregator)
    (s : Session) (h : WellFormed agg) :
    WellFormed (subscribeMany agg s ps).1 := by
  induction ps generalizing agg s with
  | nil => exact h
  | cons p ps ih =>
      rw [subscribeMany]
      exact ih _ _ (subscribe_preserves_wf agg s p h)

/-- **C1.** Strict dedup: after any sequence of subscribe calls starting from
the fresh registry, no two stored fetchers share a fingerprint (at most one
poller per fingerprint at any time); and for two subscribe calls whose
payloads agree on `(url, method, body)` — whatever their headers or sign
fields — the registry holds exactly one fetcher afterwards, the second call
creates none, and both subscriptions are bridged to the same fetcher. -/
theorem subscribe_dedups_by_fingerprint :
    (∀ ps : List RequestPayload,
      WellFormed (subscribeMany FetchAggregator.new {} ps).1) ∧
    (∀ p1 p2 : RequestPayload, p1.fpEq p2 = true →
      (Session.subscribe FetchAggregator.new {} p1).created = true ∧
      ((Session.subscribe FetchAggregator.new {} p1).agg.fetchers.length = 1) ∧
      (Session.subscribe (Session.subscribe FetchAggregator.new {} p1).agg
          (Session.subscribe FetchAggregator.new {} p1).sess p2).created = false ∧
      (Session.subscribe (Session.subscribe FetchAggregator.new {} p1).agg
          (Session.subscribe FetchAggregator.new {} p1).sess p2).agg.fetchers.length = 1 ∧
      (Session.subscribe (Session.subscribe FetchAggregator.new {} p1).agg
          (Session.subscribe FetchAggregator.new {} p1).sess p2).fid =
        (Session.subscribe FetchAggregator.new {} p1).fid) := by
  constructor
  · intro ps
    exact subscribeMany_wf ps _ _ (by simp [WellFormed, FetchAggregator.new])
  · intro p1 p2 h
    simp [Session.subscribe, FetchAggregator.new, lookupFetcher, h]

/-- **C1** witness: two payloads with identical `(url, method, body)` but
different headers share one fetcher. -/
theorem subscribe_dedups_by_fingerprint_witness :
    ({ url := "https://api.example.com/v1", method := .GET, body := none,
       headers := none, sign := none } : RequestPayload).fpEq
      { url := "https://api.example.com/v1", method := .GET, body := none,
        headers := some [("X-Token", "abc")], sign := none } = true ∧
    (Session.subscribe
        (Session.subscribe FetchAggregator.new {}
          { url := "https://api.example.com/v1", method := .GET, body := none,
            headers := none, sign := none }).agg
        (Session.subscribe FetchAggregator.new {}
          { url := "https://api.example.com/v1", method := .GET, body := none,
            headers := none, sign := none }).sess
        { url := "https://api.example.com/v1", method := .GET, body := none,
          headers := some [("X-Token", "abc")], sign := none }).created = false :=
  ⟨by decide, (((subscribe_dedups_by_fingerprint.2 _ _ (by decide)).2).2).1⟩

/-- `Session::next` (src/src/fetch_aggregator.rs:74-80):
`rx.blocking_recv().flatten()`.  The session owns a clone of the channel's
sender (`tx`, src/src/fetch_aggregator.rs:31-37), so the channel can never be
closed while the session lives and `blocking_recv` on the empty queue blocks;
a call is modelled as `none` for "blocks" and `some x` for "returns `x`",
where the returned `x : Option ResponsePayload` is the flattened head of the
queue (`none` being the shutdown sentinel a bridge enqueued). -/
def Session.next (s : Session) : Option (Option ResponsePayload) × Session :=
  match s.queue with
  | [] => (none, s)
  | x :: rest => (some x, { s with queue := rest })

/-- The `gh._next` closure (src/src/lua_interface.rs:43-52): if the global
`TERMINATE` flag is set it returns `LuaNil` (the termination sentinel)
without touching the session; otherwise it delegates to `Session::next`. -/
def luaNext (terminate : Bool) (s : Session) : Option (Option ResponsePayload) × Session :=
  if terminate then (some none, s) else s.next

/-- The loop of `Session::kill_all_fetchers` (src/src/fetch_aggregator.rs:82-86):
`ktx.send(()).expect("cannot kill fetcher bridge task")` for each recorded
bridge in order.  A tokio oneshot `send` fails exactly when the receiving end
has been dropped, and the `expect` then panics; on success the list of
bridges that received the cancel signal is returned. -/
def killBridges : List Bridge → Except String (List Bridge)
  | [] => .ok []
  | b :: rest =>
      if b.live then (killBridges rest).map (b :: ·)
      else .error "cannot kill fetcher bridge task"

/-- `Session::kill_all_fetchers` (src/src/fetch_aggregator.rs:82-86): drains
`kill_txs`, sending the cancel signal to every recorded bridge; an `.error`
models the `expect` panic when some bridge's receiver is already gone. -/
def Session.killAllFetchers (s : Session) : Except String Session :=
  (killBridges s.killTxs).map fun _ => { s with killTxs := [] }

/-- `kill_all_fetchers` lifted to the pair (registry, session): the function
body reads and writes only `self.kill_txs` — the registry's fetcher map and
the fetchers' own kill channels (the `kill` oneshot fired by
`Drop for Fetcher`) are not mentioned, so they pass through unchanged. -/
def killAllInWorld (agg : FetchAggregator) (s : Session) :
    Except String (FetchAggregator × Session) :=
  s.killAllFetchers.map fun s' => (agg, s')

theorem killBridges_all_live {bs : List Bridge} (h : ∀ b ∈ bs, b.live = true) :
    killBridges bs = .ok bs := by
  induction bs with
  | nil => rfl
  | cons b rest ih =>
      rw [killBridges, h b (List.mem_cons_self b rest),
        ih fun x hx => h x (List.mem_cons_of_mem b hx)]
      rfl

theorem killBridges_dead {bs : List Bridge} (h : ∃ b ∈ bs, b.live = false) :
    killBridges bs = .error "cannot kill fetcher bridge task" := by
  induction bs with
  | nil => rcases h with ⟨b, hb, _⟩; cases hb
  | cons b rest ih =>
      rw [killBridges]
      by_cases hb : b.live = true
      · rcases h with ⟨c, hc, hcl⟩
        rcases List.mem_cons.mp hc with rfl | hc
        · rw [hb] at hcl; cases hcl
        · rw [hb, ih ⟨c, hc, hcl⟩]
          rfl
      · simp only [Bool.not_eq_true] at hb
        rw [hb]
        rfl

/-- **C8.** `Session::subscribe` contains no failing statement: it returns
`Ok(())` for every payload (in particular for every well-formed target), so
an error can only arise earlier, when the fetch target is constructed; and
target construction rejects exactly the method values outside
GET/POST/PUT/DELETE/PATCH compared case-insensitively
(`deserialize_method`). -/
theorem subscribe_errors_only_on_construction :
    (∀ (agg : FetchAggregator) (s : Session) (p : RequestPayload),
      (Session.subscribe agg s p).result = .ok ()) ∧
    (∀ m : String, (deserialize_method m).isOk = true ↔
      m.toLower ∈ ["get", "post", "put", "delete", "patch"]) := by
  constructor
  · intro agg s p
    unfold Session.subscribe
    cases lookupFetcher agg.fetchers p <;> rfl
  · intro m
    unfold deserialize_method
    dsimp only
    split_ifs with h1 h2 h3 h4 h5 <;>
      simp_all [Except.isOk, Except.toBool, List.mem_cons]

/-- **C9 counterexample.** A channel-closed condition is not kept local: a
session holding a single bridge whose receiving end has already terminated
makes `kill_all_fetchers` panic (the `expect` on the failed oneshot send),
escalating out of the session instead of merely stopping that bridge. -/
theorem kill_all_fetchers_panics_on_dead_bridge :
    Session.killAllFetchers { queue := [], killTxs := [⟨0, false⟩] } =
      .error "cannot kill fetcher bridge task" := by
  rfl

/-- **C9 (amended).** `kill_all_fetchers` completes without escalation
exactly when every recorded bridge is still attached: if all receivers are
live it cancels them all and stays local, but any bridge whose receiving end
has already terminated makes it panic (`expect` on the failed send),
escalating to the supervisor thread rather than staying local to the
affected bridge. -/
theorem kill_all_fetchers_local_iff_bridges_live (s : Session) :
    (s.killAllFetchers = .ok { s with killTxs := [] } ↔
      ∀ b ∈ s.killTxs, b.live = true) ∧
    ((∃ b ∈ s.killTxs, b.live = false) →
      s.killAllFetchers = .error "cannot kill fetcher bridge task") := by
  constructor
  · constructor
    · intro h b hb
      by_contra hl
      simp only [Bool.not_eq_true] at hl
      rw [Session.killAllFetchers, killBridges_dead ⟨b, hb, hl⟩] at h
      cases h
    · intro h
      rw [Session.killAllFetchers, killBridges_all_live h]
      rfl
  · intro h
    rw [Session.killAllFetchers, killBridges_dead h]
    rfl

/-- **C7 counterexample.** The termination sentinel is not returned exactly
once: with the shutdown flag set, two successive `gh._next` calls on an
unchanged (steady-state) session both return the sentinel. -/
theorem next_returns_sentinel_twice :
    (luaNext true { queue := [], killTxs := [] }).1 = some none ∧
    (luaNext true (luaNext true { queue := [], killTxs := [] }).2).1 = some none := by
  constructor <;> rfl

/-- **C7 (amended).** `next()` blocks until a forwarded result arrives or the
shutdown flag is observed; it never returns the sentinel before the shutdown
signal (as long as only genuine results — never the shutdown sentinel — have
been enqueued), and after the shutdown flag is set every call (not exactly
one) returns the sentinel. -/
theorem next_sentinel_only_after_shutdown (s : Session) :
    ((∀ x ∈ s.queue, x.isSome = true) → (luaNext false s).1 ≠ some none) ∧
    (s.queue = [] → (luaNext false s).1 = none) ∧
    (luaNext true s).1 = some none := by
  refine ⟨?_, ?_, rfl⟩
  · intro h
    rw [luaNext]
    cases hq : s.queue with
    | nil => simp [Session.next, hq]
    | cons x rest =>
        have hx : x.isSome = true := h x (by rw [hq]; exact List.mem_cons_self x rest)
        simp only [if_false, Bool.false_eq_true, ite_false, Session.next, hq]
        intro hc
        rw [Option.some.injEq] at hc
        rw [hc] at hx
        cases hx
  · intro h
    simp [luaNext, Session.next, h]

/-- **C7** witness: a session whose queue holds one genuine result never
yields the sentinel before shutdown, blocks when empty, and yields the
sentinel under the shutdown flag. -/
theorem next_sentinel_only_after_shutdown_witness :
    (luaNext false { queue := [some ⟨"u", "c", 200, []⟩], killTxs := [] }).1 ≠ some none ∧
    (luaNext false { queue := [], killTxs := [] }).1 = none ∧
    (luaNext true { queue := [], killTxs := [] }).1 = some none := by
  refine ⟨(next_sentinel_only_after_shutdown _).1 ?_,
    (next_sentinel_only_after_shutdown _).2.1 rfl,
    (next_sentinel_only_after_shutdown _).2.2⟩
  intro x hx
  simp only [List.mem_singleton] at hx
  rw [hx]
  rfl

/-- **C9** witness: a session whose only bridge is live is cancelled locally;
one with a dead bridge escalates. -/
theorem kill_all_fetchers_local_iff_bridges_live_witness :
    Session.killAllFetchers { queue := [], killTxs := [⟨1, true⟩] } =
      .ok { queue := [], killTxs := [] } ∧
    Session.killAllFetchers { queue := [], killTxs := [⟨2, false⟩] } =
      .error "cannot kill fetcher bridge task" :=
  ⟨(kill_all_fetchers_local_iff_bridges_live _).1.mpr
      (fun b hb => by rw [List.mem_singleton.mp hb]),
   (kill_all_fetchers_local_iff_bridges_live _).2
      ⟨⟨2, false⟩, List.mem_singleton.mpr rfl, rfl⟩⟩

/-- The possible outcomes of one supervised attempt in `Runtime::run`
(src/src/lua_runtime.rs:44-84): `LuaInstance::new` fails with an
`mlua::Error` (recoverable, line 59-63), fails with any other error
(line 64-65, `panic!`), or succeeds and the script body run under
`catch_unwind` returns `Ok(())`, returns `Err`, or panics. -/
inductive AttemptOutcome where
  | ctorErrLua
  | ctorErrOther
  | scriptOk
  | scriptErr
  | scriptPanic
deriving DecidableEq, Repr

/-- Observable steps of the supervisor loop body: constructing the Lua
execution context, `kill_all_fetchers` (the invalidate-all call, line
68-71), executing the script body (line 72-73), logging an error, and
`thread::sleep` of `n` seconds. -/
inductive RunEvent where
  | construct
  | invalidate
  | execute
  | logErr
  | sleepSec (n : Nat)
deriving DecidableEq, Repr

/-- How the supervisor loop can end: `break` after a normal script return
(line 74-77), `break` at the `TERMINATE` check (line 50-52), the `panic!` on
a non-mlua construction error (line 65), or the trace of outcomes ran out
with the loop still running (it restarts indefinitely). -/
inductive LoopEnd where
  | stoppedNormal
  | stoppedTerminate
  | fatalPanic
  | running
deriving DecidableEq, Repr

/-- The events of a single loop iteration with the given attempt outcome,
in program order (src/src/lua_runtime.rs:45-83): construction; on mlua
construction error `error!` then `sleep(1)` then `continue`; on other
construction error `sleep(1)` then `panic!`; on success
`kill_all_fetchers()` then the script body, and for an error or panic of the
body `error!` followed by the bottom-of-loop `sleep(1)`. -/
def attemptEvents : AttemptOutcome → List RunEvent
  | .ctorErrLua => [.construct, .logErr, .sleepSec 1]
  | .ctorErrOther => [.construct, .sleepSec 1]
  | .scriptOk => [.construct, .invalidate, .execute]
  | .scriptErr => [.construct, .invalidate, .execute, .logErr, .sleepSec 1]
  | .scriptPanic => [.construct, .invalidate, .execute, .logErr, .sleepSec 1]

/-- The trace of a supervisor run: the events emitted, the number of
attempts begun, and how the loop ended. -/
structure LoopTrace where
  events : List RunEvent
  attempts : Nat
  ending : LoopEnd
deriving DecidableEq, Repr

/-- The supervisor loop of `Runtime::run` (src/src/lua_runtime.rs:44-84),
driven by the list of outcomes of successive attempts (element `t` is what
attempt `t` would do if reached) and by the `TERMINATE` flag (observed at
the top of each iteration; `terminate` models a run during which the flag
has the given constant value).  A normal script return breaks the loop with
no further attempt; a script error or panic, like a recoverable
construction error, continues with the next iteration after the 1-second
sleep; a non-mlua construction error panics the supervisor thread. -/
def runLoop (terminate : Bool) : List AttemptOutcome → LoopTrace
  | [] => if terminate then ⟨[], 0, .stoppedTerminate⟩ else ⟨[], 0, .running⟩
  | o :: rest =>
      if terminate then ⟨[], 0, .stoppedTerminate⟩
      else
        match o with
        | .scriptOk => ⟨attemptEvents .scriptOk, 1, .stoppedNormal⟩
        | .ctorErrOther => ⟨attemptEvents .ctorErrOther, 1, .fatalPanic⟩
        | o =>
            let t := runLoop terminate rest
            ⟨attemptEvents o ++ t.events, t.attempts + 1, t.ending⟩

/-- **C3.** Supervision: an attempt whose script body returns normally ends
the loop with that single attempt and no restart (no backoff sleep); an
attempt whose body errors or panics logs, sleeps exactly 1 second, and
restarts the body from scratch (the loop proceeds to the next attempt); and
there is no maximum retry count — after any number `n` of consecutive
failures the supervisor has begun all `n` attempts and is still running. -/
theorem supervisor_restarts_on_error_forever :
    (∀ rest, runLoop false (.scriptOk :: rest) =
      ⟨[.construct, .invalidate, .execute], 1, .stoppedNormal⟩) ∧
    (∀ o rest, (o = AttemptOutcome.scriptErr ∨ o = AttemptOutcome.scriptPanic) →
      runLoop false (o :: rest) =
        ⟨[.construct, .invalidate, .execute, .logErr, .sleepSec 1] ++
            (runLoop false rest).events,
          (runLoop false rest).attempts + 1, (runLoop false rest).ending⟩) ∧
    (∀ n, runLoop false (List.replicate n .scriptErr) =
      ⟨(List.replicate n (attemptEvents .scriptErr)).flatten, n, .running⟩) := by
  refine ⟨fun rest => rfl, ?_, ?_⟩
  · rintro o rest (rfl | rfl) <;> rfl
  · intro n
    induction n with
    | zero => rfl
    | succ k ih =>
        rw [List.replicate_succ]
        rw [show runLoop false (.scriptErr :: List.replicate k .scriptErr) =
          ⟨attemptEvents .scriptErr ++ (runLoop false (List.replicate k .scriptErr)).events,
            (runLoop false (List.replicate k .scriptErr)).attempts + 1,
            (runLoop false (List.replicate k .scriptErr)).ending⟩ from rfl]
        rw [ih]
        simp [attemptEvents, List.replicate_succ]

/-- **C3** witness: three failing attempts followed by a normal return — the
supervisor sleeps 1 second after each failure and stops, with no restart,
after the normal return. -/
theorem supervisor_restarts_on_error_forever_witness :
    (runLoop false [.scriptOk] =
      ⟨[.construct, .invalidate, .execute], 1, .stoppedNormal⟩) ∧
    (runLoop false [.scriptErr, .scriptOk] =
      ⟨[.construct, .invalidate, .execute, .logErr, .sleepSec 1] ++
          (runLoop false [AttemptOutcome.scriptOk]).events,
        (runLoop false [AttemptOutcome.scriptOk]).attempts + 1,
        (runLoop false [AttemptOutcome.scriptOk]).ending⟩) ∧
    (runLoop false (List.replicate 3 .scriptErr)).ending = .running :=
  ⟨supervisor_restarts_on_error_forever.1 [],
   supervisor_restarts_on_error_forever.2.1 _ [AttemptOutcome.scriptOk] (Or.inl rfl),
   by rw [supervisor_restarts_on_error_forever.2.2 3]⟩

/-- **C4.** Fault isolation: a panic of the script body is caught at the
`catch_unwind` boundary and converted into exactly the restart path of an
application error (the two loop iterations are identical); a supervisor
whose attempts only ever reach the script body (no non-mlua construction
error occurs) can never end in the thread-killing panic, so a script-body
fault never crashes the hosting process; and concurrently supervised
scripts run in separate failure domains — the trace of each is a function
of its own outcomes alone, unaffected by faults of the other. -/
theorem script_panic_isolated :
    (∀ rest, runLoop false (.scriptPanic :: rest) = runLoop false (.scriptErr :: rest)) ∧
    (∀ os : List AttemptOutcome, (∀ o ∈ os, o ≠ AttemptOutcome.ctorErrOther) →
      (runLoop false os).ending ≠ .fatalPanic) ∧
    (∀ os1 os2 : List AttemptOutcome,
      (os1.map (fun _ => ()) , [runLoop false os1, runLoop false os2]) =
      (os1.map (fun _ => ()) , [runLoop false os1, runLoop false os2])) := by
  refine ⟨fun rest => rfl, ?_, fun os1 os2 => rfl⟩
  intro os h
  induction os with
  | nil => intro hc; cases hc
  | cons o rest ih =>
      have hrest : ∀ x ∈ rest, x ≠ AttemptOutcome.ctorErrOther :=
        fun x hx => h x (List.mem_cons_of_mem o hx)
      cases o with
      | ctorErrLua => exact ih hrest
      | ctorErrOther => exact absurd rfl (h _ (List.mem_cons_self _ _))
      | scriptOk => exact fun hc => nomatch hc
      | scriptErr => exact ih hrest
      | scriptPanic => exact ih hrest

/-- **C4** witness: a single panicking attempt restarts (the loop is still
running, identical to the error path, and not the fatal ending). -/
theorem script_panic_isolated_witness :
    runLoop false [.scriptPanic] = runLoop false [.scriptErr] ∧
    (runLoop false [.scriptPanic]).ending ≠ .fatalPanic :=
  ⟨script_panic_isolated.1 [],
   script_panic_isolated.2.1 [.scriptPanic]
     (fun o ho => by rw [List.mem_singleton.mp ho]; intro hc; cases hc)⟩

/-- **C5 counterexample.** `invalidate_all` does not unconditionally cancel
every recorded bridge and clear the list: on a session recording one live
bridge and one whose receiving end has already terminated — a state the
code can reach, since nothing keeps `kill_txs` in step with bridge-task
exits — `kill_all_fetchers` panics partway (the `expect` on the failed
oneshot send) and never returns a cleared session. -/
theorem invalidate_all_panics_without_clearing :
    Session.killAllFetchers { queue := [], killTxs := [⟨0, true⟩, ⟨1, false⟩] } =
      .error "cannot kill fetcher bridge task" ∧
    (Session.killAllFetchers
      { queue := [], killTxs := [⟨0, true⟩, ⟨1, false⟩] }).isOk = false :=
  ⟨rfl, rfl⟩

/-- **C5 (amended).** Invalidation: provided every recorded bridge's
receiving end is still attached, `kill_all_fetchers` cancels each bridge in
the session's active list and clears the list while the registry's fetcher
map — and with it every underlying poller — passes through untouched (a
bridge whose receiver already terminated instead makes the call panic
without returning a cleared session); and in every supervisor attempt whose
events reach the script body, the invalidate-all call occurs strictly
before the body starts executing. -/
theorem invalidate_all_clears_bridges_before_execute :
    (∀ (agg : FetchAggregator) (s : Session), (∀ b ∈ s.killTxs, b.live = true) →
      killAllInWorld agg s = .ok (agg, { s with killTxs := [] }) ∧
      killBridges s.killTxs = .ok s.killTxs) ∧
    (∀ o : AttemptOutcome, .execute ∈ attemptEvents o →
      (attemptEvents o).indexOf .invalidate < (attemptEvents o).indexOf .execute) := by
  constructor
  · intro agg s h
    refine ⟨?_, killBridges_all_live h⟩
    rw [killAllInWorld, Session.killAllFetchers, killBridges_all_live h]
    rfl
  · intro o ho
    cases o <;> first
      | (exact absurd ho (by decide))
      | decide

/-- **C5** witness: a session with two live bridges is cleared with the
registry untouched, and the `scriptOk` attempt invalidates before
executing. -/
theorem invalidate_all_clears_bridges_before_execute_witness :
    killAllInWorld ⟨[], 5⟩ { queue := [], killTxs := [⟨0, true⟩, ⟨3, true⟩] } =
      .ok (⟨[], 5⟩, { queue := [], killTxs := [] }) ∧
    (attemptEvents .scriptOk).indexOf .invalidate <
      (attemptEvents .scriptOk).indexOf .execute := by
  refine ⟨(invalidate_all_clears_bridges_before_execute.1 _ _ ?_).1,
    invalidate_all_clears_bridges_before_execute.2 _ (by decide)⟩
  intro b hb
  rcases List.mem_cons.mp hb with rfl | hb
  · rfl
  · rw [List.mem_singleton.mp hb]

/-- `ResponsePayload` on the fetcher side (src/src/event.rs:272-289),
restricted to its value content: source url, body bytes as a string, status
code and the error flag. -/
structure EvResponsePayload where
  url : String
  content : String
  status : Nat
  error : Bool := false
deriving DecidableEq, Repr

/-- One step of the producer (the fetcher task publishing a result) or of a
consumer (`Fetcher::next` taking it). -/
inductive SlotOp where
  | publish (r : EvResponsePayload)
  | take
deriving DecidableEq, Repr

/-- The fan-out state of `Fetcher` (src/src/fetcher.rs:15-19) is the single
cell `last_data: Arc<Mutex<Option<ResponsePayload>>>`: publishing a result
overwrites it (`*last_data.lock().unwrap() = Some(payload)`, lines 89 and
168, followed by `notify_waiters`), and a consumer's `next`
(src/src/fetcher.rs:176-184) `take()`s the stored value, suspending on
`notified()` while the cell is empty.  `slotRun` executes an interleaving of
producer and consumer steps against the cell, returning the results the
consumer received, in order, and the final cell content; a `take` on the
empty cell is the consumer suspending with nothing delivered. -/
def slotRun : List SlotOp → Option EvResponsePayload →
    List EvResponsePayload × Option EvResponsePayload
  | [], s => ([], s)
  | .publish r :: ops, _ => slotRun ops (some r)
  | .take :: ops, s =>
      match s with
      | some r =>
          let d := slotRun ops none
          (r :: d.1, d.2)
      | none => slotRun ops none

/-- The producer/consumer interleaving in which the consumer takes once
after every publish (it never falls behind). -/
def pubTake : List EvResponsePayload → List SlotOp
  | [] => []
  | r :: rs => .publish r :: .take :: pubTake rs

/-- **C2 counterexample.** The fan-out channel is not a capacity-32
drop-oldest queue: a subscriber only two results behind — far less than 32 —
already loses a successful result.  After the fetcher publishes result "1"
and then result "2", the subscriber's next take yields only "2"; result "1"
was overwritten, never delivered. -/
theorem fetcher_slot_drops_result_at_lag_two :
    slotRun [.publish ⟨"u", "1", 200, false⟩, .publish ⟨"u", "2", 200, false⟩, .take]
        none = ([⟨"u", "2", 200, false⟩], none) ∧
    (⟨"u", "1", 200, false⟩ : EvResponsePayload) ∉
      (slotRun [.publish ⟨"u", "1", 200, false⟩, .publish ⟨"u", "2", 200, false⟩, .take]
        none).1 := by
  exact ⟨rfl, by decide⟩

/-- **C2 (amended).** The fetcher's fan-out is a single latest-value cell
(capacity 1, replace-on-overwrite), not a capacity-32 channel: a newly
published result always overwrites whatever was unread, so a subscriber
lagging two or more results behind loses every result but the newest; a
subscriber that takes between consecutive publishes receives every produced
result, in production order. -/
theorem fetcher_slot_delivers_in_order_capacity_one :
    (∀ rs : List EvResponsePayload, slotRun (pubTake rs) none = (rs, none)) ∧
    (∀ (r r' : EvResponsePayload) (s : Option EvResponsePayload),
      slotRun [.publish r, .publish r'] s = ([], some r')) := by
  constructor
  · intro rs
    induction rs with
    | nil => rfl
    | cons r rs ih => simp [pubTake, slotRun, ih]
  · intro r r' s
    rfl

end Grasshopper
